import Mathlib

namespace PauthRC

/-- JSON-like runtime values of the Python rule engine
(`src/backend/app/rules/rule_engine.py`).  Python ints and floats are
modelled as exact integers and rationals; `None` is `null`. -/
inductive Val where
  | null
  | bool (b : Bool)
  | int (n : Int)
  | rat (q : Rat)
  | str (s : String)
  | list (xs : List Val)
  | dict (kvs : List (String × Val))

/-- Numeric view: Python treats `bool` as a number and compares `int` and
`float` numerically. -/
def toNum : Val → Option Rat
  | .bool b => some (if b then 1 else 0)
  | .int n => some (n : Rat)
  | .rat q => some q
  | _ => none

/-- Numeric equality across Python number types (`True == 1`, `1 == 1.0`). -/
def numEq (a b : Val) : Bool :=
  match toNum a, toNum b with
  | some x, some y => x == y
  | _, _ => false

/-- First value stored under key `k` (Python dicts have unique keys, so first
match is the dict lookup). -/
def lookupVal (kvs : List (String × Val)) (k : String) : Option Val :=
  match kvs with
  | [] => none
  | (k2, v) :: rest => if k2 == k then some v else lookupVal rest k

mutual
/-- Python `==` on the modelled values: numbers compare numerically,
strings/lists/dicts structurally, mixed types are unequal (never an error). -/
def pyEq : Val → Val → Bool
  | .list xs, .list ys => pyEqList xs ys
  | .dict xs, .dict ys => Nat.beq xs.length ys.length && pyEqDict xs ys
  | .null, .null => true
  | .str s, .str t => s == t
  | a, b => numEq a b

def pyEqList : List Val → List Val → Bool
  | [], [] => true
  | x :: xs, y :: ys => pyEq x y && pyEqList xs ys
  | _, _ => false

def pyEqDict : List (String × Val) → List (String × Val) → Bool
  | [], _ => true
  | (k, v) :: rest, ys =>
    (match lookupVal ys k with
     | some w => pyEq v w
     | none => false) && pyEqDict rest ys
end

/-- Lexicographic ordering of char lists by code point (Python string `<`). -/
def compareCharList : List Char → List Char → Ordering
  | [], [] => .eq
  | [], _ :: _ => .lt
  | _ :: _, [] => .gt
  | c :: cs, d :: ds =>
    if c.val < d.val then .lt
    else if d.val < c.val then .gt
    else compareCharList cs ds

/-- Ordering on exact rationals (Python numeric `<`/`>`). -/
def compareRat (x y : Rat) : Ordering :=
  if x < y then .lt else if y < x then .gt else .eq

mutual
/-- Python rich comparison `<`/`<=`/`>`/`>=`: defined for number/number,
str/str and list/list pairs; `none` models the `TypeError` raised on any
other pair. -/
def pyCompare : Val → Val → Option Ordering
  | .str s, .str t => some (compareCharList s.data t.data)
  | .list xs, .list ys => pyCompareList xs ys
  | a, b =>
    match toNum a, toNum b with
    | some x, some y => some (compareRat x y)
    | _, _ => none

/-- Python list ordering: skip `==`-equal prefixes, order the first unequal
pair (a `TypeError` there propagates), else compare lengths. -/
def pyCompareList : List Val → List Val → Option Ordering
  | [], [] => some .eq
  | [], _ :: _ => some .lt
  | _ :: _, [] => some .gt
  | x :: xs, y :: ys =>
    if pyEq x y then pyCompareList xs ys else pyCompare x y
end

def charListIsPrefixOf : List Char → List Char → Bool
  | [], _ => true
  | _ :: _, [] => false
  | c :: cs, d :: ds => c == d && charListIsPrefixOf cs ds

/-- Python substring test `needle in hay`. -/
def charListIsInfixOf (needle hay : List Char) : Bool :=
  charListIsPrefixOf needle hay ||
    (match hay with
     | [] => false
     | _ :: rest => charListIsInfixOf needle rest)

/-- Python membership `pv in th`: list membership, substring test on
strings, key membership on dicts; `none` models `TypeError` (non-container
threshold, non-string needle in a string, unhashable needle in a dict). -/
def pyIn (pv th : Val) : Option Bool :=
  match th with
  | .list xs => some (xs.any (fun e => pyEq e pv))
  | .str t =>
    match pv with
    | .str s => some (charListIsInfixOf s.data t.data)
    | _ => none
  | .dict kvs =>
    match pv with
    | .list _ => none
    | .dict _ => none
    | .str s => some (kvs.any (fun p => p.1 == s))
    | _ => some false
  | _ => none

/-- Python default whitespace set of `str.strip`. -/
def isPySpace (c : Char) : Bool :=
  c == ' ' || c == '\t' || c == '\n' || c == '\r' || c == '\x0b' || c == '\x0c'

/-- Python `s.lower()` (ASCII case mapping). -/
def pyLower (s : String) : String := ⟨s.data.map Char.toLower⟩

/-- Python `s.upper()` (ASCII case mapping). -/
def pyUpper (s : String) : String := ⟨s.data.map Char.toUpper⟩

/-- Python `s.strip()`. -/
def pyStrip (s : String) : String :=
  ⟨((s.data.dropWhile isPySpace).reverse.dropWhile isPySpace).reverse⟩

def isNone : Val → Bool
  | .null => true
  | _ => false

/-- Python identity test `x is False` (only the bool `False`, not `0`). -/
def isFalseLit : Val → Bool
  | .bool false => true
  | _ => false

/-- The elif-chain of `compare_values` over the nine known operators;
the final `else` models `raise ValueError(f"Unknown operator: ...")`. -/
def compareValuesChain (pv : Val) (op : String) (th : Val) : Except String Bool :=
  if op == "gte" then
    .ok (match pyCompare pv th with
         | some o => !(o == Ordering.lt)
         | none => false)
  else if op == "gt" then
    .ok (match pyCompare pv th with
         | some Ordering.gt => true
         | _ => false)
  else if op == "lte" then
    .ok (match pyCompare pv th with
         | some o => !(o == Ordering.gt)
         | none => false)
  else if op == "lt" then
    .ok (match pyCompare pv th with
         | some Ordering.lt => true
         | _ => false)
  else if op == "eq" then .ok (pyEq pv th)
  else if op == "neq" then .ok (!pyEq pv th)
  else if op == "in" then
    .ok (match pyIn pv th with
         | some b => b
         | none => false)
  else if op == "contains" then
    .ok (match pv with
         | .list xs => xs.any (fun e => pyEq e th)
         | _ => false)
  else if op == "any_in" then
    .ok (match pv, th with
         | .list xs, .list ys => xs.any (fun item => ys.any (fun e => pyEq e item))
         | _, _ => false)
  else .error ("Unknown operator: " ++ op)

/-- `compare_values(patient_value, operator, threshold)` from
rule_engine.py.  The `None` branch and the string-`eq` normalization come
first, then the operator chain; `.error` models a raised exception. -/
def compare_values (pv : Val) (op : String) (th : Val) : Except String Bool :=
  if isNone pv then
    .ok (op == "eq" && (isNone th || isFalseLit th))
  else
    match pv, th with
    | .str s, .str t =>
      if op == "eq" then .ok (pyStrip (pyLower s) == pyStrip (pyLower t))
      else compareValuesChain (.str s) op (.str t)
    | a, b => compareValuesChain a op b

/-- `get_nested_value`: walk the dotted path; a missing key, a stored
`None`, or a non-dict intermediate yields the default `None`. -/
def getNested : List String → Val → Val
  | [], v => v
  | k :: ks, .dict kvs =>
    (match lookupVal kvs k with
     | some .null => .null
     | some v => getNested ks v
     | none => .null)
  | _ :: _, _ => .null

/-- Python `path.split(".")` (note `"".split(".") == [""]`). -/
def splitDots : List Char → List Char → List String
  | [], acc => [⟨acc.reverse⟩]
  | c :: cs, acc =>
    if c == '.' then (⟨acc.reverse⟩ : String) :: splitDots cs []
    else splitDots cs (c :: acc)

def get_nested_value (data : Val) (path : String) : Val :=
  getNested (splitDots path.data []) data

/-- A condition dict.  A `field`/`operator` key that is missing behaves in
`evaluate_condition` exactly like the empty string (both are falsy in
`if not all([field, operator])` and reach no other code), so both are
modelled as `""`. -/
structure Condition where
  field : String
  operator : String
  value : Val

/-- `evaluate_condition` from rule_engine.py: falsy field/operator fails,
and every exception from resolution/comparison is caught and turned into
`False`. -/
def evaluate_condition (patient_data : Val) (cond : Condition) : Bool :=
  if cond.field == "" || cond.operator == "" then false
  else
    match compare_values (get_nested_value patient_data cond.field) cond.operator cond.value with
    | .ok b => b
    | .error _ => false

example : evaluate_condition (.dict [("a", .int 5)]) ⟨"a", "gte", .int 3⟩ = true := by rfl
example : compare_values .null "eq" .null = .ok true := by rfl
example : compare_values (.str "Failed ") "eq" (.str "failed") = .ok true := by rfl
example : compare_values (.int 1) "bogus" .null = .error "Unknown operator: bogus" := by rfl
example : charListIsInfixOf "pt".data "physical pt therapy".data = true := by rfl

/-- Display string for a Python float; our floats are exact rationals, so
this is an idealization of `repr(float)` (display-only, never compared). -/
def ratRepr (q : Rat) : String :=
  if q.den == 1 then toString q.num ++ ".0"
  else toString q.num ++ "/" ++ toString q.den

def joinWith (sep : String) : List String → String
  | [] => ""
  | [s] => s
  | s :: rest => s ++ sep ++ joinWith sep rest

mutual
/-- Python `repr` of a value (used by `str` on containers). -/
def pyRepr : Val → String
  | .null => "None"
  | .bool b => if b then "True" else "False"
  | .int n => toString n
  | .rat q => ratRepr q
  | .str s => "\x27" ++ s ++ "\x27"
  | .list xs => "[" ++ joinWith ", " (pyReprList xs) ++ "]"
  | .dict kvs => "\x7b" ++ joinWith ", " (pyReprDict kvs) ++ "\x7d"

def pyReprList : List Val → List String
  | [] => []
  | v :: vs => pyRepr v :: pyReprList vs

def pyReprDict : List (String × Val) → List String
  | [] => []
  | (k, v) :: rest => ("\x27" ++ k ++ "\x27: " ++ pyRepr v) :: pyReprDict rest
end

/-- Python `str(value)`. -/
def pyStr : Val → String
  | .str s => s
  | v => pyRepr v

/-- One iteration of the loop in `_format_patient_values`: `none` when the
loop appends nothing for this value. -/
def formatPart : Val → Option String
  | .null => none
  | .bool b => some (if b then "Yes" else "No")
  | .int n => some (toString n)
  | .rat q => some (ratRepr q)
  | .list xs =>
    let items := (xs.filter (fun v => !(isNone v))).map pyStr
    if items.isEmpty then none else some (joinWith ", " items)
  | .str s => some s
  | .dict kvs => some (pyRepr (.dict kvs))

/-- `_format_patient_values` (its `patient_data` parameter is unused in the
source and dropped here). -/
def format_patient_values (patient_values : List Val) : String :=
  if patient_values.isEmpty then "Not found in chart"
  else
    let parts := patient_values.filterMap formatPart
    if parts.isEmpty then "Not found in chart"
    else joinWith "; " parts

/-- A rule dict as consumed by `evaluate_rule`/`evaluate_all`, with the
source's `.get` defaults.  The keys `threshold`, `exclusion`,
`exception_pathway` and `overrides` occur in rule dicts built by the
repository's tests and spec but are never read by any function in
rule_engine.py; they are carried here so claims can quantify over rules
that have them. -/
structure Rule where
  id : String := "unknown"
  description : String := "No description"
  logic : String := "all"
  conditions : List Condition := []
  threshold : Option Val := none
  exclusion : Bool := false
  exception_pathway : Bool := false
  overrides : List String := []

structure ConditionDetail where
  condition : String
  patient_value : Val
  met : Bool

/-- The per-rule result dict of `evaluate_rule` (and of the synthetic
workers-compensation exclusion entry).  Keys absent in a given source
branch are `none`/`false` here. -/
structure RuleResult where
  rule_id : String
  description : String
  met : Bool
  logic : Option String := none
  details : Option String := none
  condition_details : List ConditionDetail := []
  patient_value : String
  exclusion : Bool := false
  exclusion_reason : Option String := none

/-- `evaluate_rule` from rule_engine.py: empty conditions short-circuit to
not-met; logic `all`/`any` combine the condition results and any other
logic string yields `met = False`. -/
def evaluate_rule (patient_data : Val) (rule : Rule) : RuleResult :=
  if rule.conditions.isEmpty then
    { rule_id := rule.id, description := rule.description, met := false,
      details := some "No conditions specified",
      patient_value := "Not found in chart" }
  else
    let results := rule.conditions.map (evaluate_condition patient_data)
    let met :=
      if rule.logic == "all" then results.all (fun b => b)
      else if rule.logic == "any" then results.any (fun b => b)
      else false
    let condition_details := (rule.conditions.zip results).map (fun p =>
      { condition := p.1.field ++ " " ++ p.1.operator ++ " " ++ pyStr p.1.value,
        patient_value := get_nested_value patient_data p.1.field,
        met := p.2 : ConditionDetail })
    let patient_values :=
      (rule.conditions.map (fun c => get_nested_value patient_data c.field)).filter
        (fun v => !(isNone v))
    let summarized :=
      if patient_values.isEmpty then "Not found in chart"
      else format_patient_values patient_values
    { rule_id := rule.id, description := rule.description, met := met,
      logic := some rule.logic, condition_details := condition_details,
      patient_value := summarized }

/-- Python truthiness (`if patient_data.get(...)`, `if requested_cpt`). -/
def pyTruthy : Val → Bool
  | .null => false
  | .bool b => b
  | .int n => !(n == 0)
  | .rat q => !(q == 0)
  | .str s => !(s == "")
  | .list xs => !xs.isEmpty
  | .dict kvs => !kvs.isEmpty

/-- The literal exclusion result dict built by
`evaluate_workers_compensation_exclusion`. -/
def wcExclusionResult : RuleResult :=
  { rule_id := "workers_compensation_exclusion",
    description := "Workers Compensation cases are excluded from standard PA evaluation",
    met := false, logic := some "all",
    condition_details := [{ condition := "is_workers_compensation eq False",
                            patient_value := .bool true, met := false }],
    patient_value := "Workers Compensation case detected",
    exclusion := true,
    exclusion_reason := some "Workers\x27 Compensation — bill WC carrier, not standard payer" }

/-- `evaluate_workers_compensation_exclusion`: fires iff the fact is truthy. -/
def evaluate_workers_compensation_exclusion
    (patient_data : List (String × Val)) : Option RuleResult :=
  if pyTruthy ((lookupVal patient_data "is_workers_compensation").getD .null) then
    some wcExclusionResult
  else none

/-- A repeat-imaging advisory warning dict (Issue 9). -/
structure ImagingWarning where
  rule_id : String
  description : String
  warning : String
  recommendation : String
  severity : String
  imaging_type : String
  imaging_months_ago : Val

/-- `RepeatImagingRule._get_modality_from_cpt`. -/
def getModalityFromCpt (cpt : String) : String :=
  if cpt == "73721" || cpt == "73722" || cpt == "73723" then "MRI"
  else if cpt == "73700" || cpt == "73701" then "CT"
  else "Unknown"

/-- Python `round(x, 1)`: identity on ints, 1 on `True`; on our exact
rationals round-half-up is used where CPython uses binary-float
round-half-even (display-only value, never compared by the engine). -/
def pyRound1 : Val → Val
  | .int n => .int n
  | .bool b => .int (if b then 1 else 0)
  | .rat q => .rat (Rat.divInt (Rat.floor (q * 10 + 1 / 2)) 10)
  | v => v

/-- `RepeatImagingRule().evaluate(normalized_patient, requested_cpt)`.
`.error` models the uncaught `AttributeError` when `imaging_type` is a
non-string and the uncaught `TypeError` when `imaging_months_ago` is
non-numeric at the `< 6` comparison (both propagate out of the source). -/
def repeatImagingEvaluate (normalized_patient : List (String × Val))
    (requested_cpt : String) : Except String (Option ImagingWarning) :=
  let imaging_type := (lookupVal normalized_patient "imaging_type").getD .null
  let months := (lookupVal normalized_patient "imaging_months_ago").getD .null
  if isNone imaging_type || isNone months then .ok none
  else
    match imaging_type with
    | .str ty =>
      if pyUpper ty == pyUpper (getModalityFromCpt requested_cpt) then
        match toNum months with
        | some q =>
          if q < 6 then
            let display := pyRound1 months
            .ok (some
              { rule_id := "repeat_imaging_check",
                description := "Verify new imaging order when recent prior imaging exists",
                warning := "Patient already has a recent " ++ ty ++ " from " ++
                  pyStr display ++ " month(s) ago. Review existing imaging before ordering a new study.",
                recommendation := "REVIEW_EXISTING_IMAGING_FIRST",
                severity := "WARNING",
                imaging_type := ty,
                imaging_months_ago := display })
          else .ok none
        | none => .error "TypeError: imaging_months_ago not comparable to int"
      else .ok none
    | _ => .error "AttributeError: imaging_type has no attribute upper"

/-- The aggregate report dict returned by `evaluate_all`. -/
structure AggregateReport where
  results : List RuleResult
  all_criteria_met : Bool
  total_rules : Nat
  rules_met : Nat
  rules_failed : Nat
  excluded : Bool
  exclusion_reason : Option String
  warnings : List ImagingWarning

/-- `evaluate_all(patient_data, policy_rules, requested_cpt)` from
rule_engine.py: workers-compensation exclusion first, then the optional
repeat-imaging advisory (the only place an exception can escape), then
every rule in the list is evaluated by `evaluate_rule`.  There is no
rule-level exclusion pass, exception pass or override handling in the
source. -/
def evaluate_all (patient_data : List (String × Val)) (policy_rules : List Rule)
    (requested_cpt : String) : Except String AggregateReport :=
  match evaluate_workers_compensation_exclusion patient_data with
  | some wc =>
    .ok { results := [wc], all_criteria_met := false, total_rules := 1,
          rules_met := 0, rules_failed := 1, excluded := true,
          exclusion_reason := wc.exclusion_reason, warnings := [] }
  | none =>
    let warningsE : Except String (List ImagingWarning) :=
      if pyTruthy (.str requested_cpt) then
        match repeatImagingEvaluate patient_data requested_cpt with
        | .ok (some w) => .ok [w]
        | .ok none => .ok []
        | .error e => .error e
      else .ok []
    match warningsE with
    | .error e => .error e
    | .ok ws =>
      let rule_results := policy_rules.map (evaluate_rule (.dict patient_data))
      .ok { results := rule_results,
            all_criteria_met := rule_results.all (fun r => r.met),
            total_rules := rule_results.length,
            rules_met := (rule_results.filter (fun r => r.met)).length,
            rules_failed := (rule_results.filter (fun r => !r.met)).length,
            excluded := false, exclusion_reason := none, warnings := ws }

example :
    (evaluate_rule (.dict [("pt_attempted", .bool true), ("pt_duration_weeks", .int 8)])
      { id := "pt_rule", logic := "all",
        conditions := [⟨"pt_attempted", "eq", .bool true⟩,
                       ⟨"pt_duration_weeks", "gte", .int 6⟩] }).met = true := by rfl

example :
    (evaluate_all [("is_workers_compensation", .bool true)] [] "").map
      (fun r => (r.excluded, r.total_rules)) = .ok (true, 1) := by rfl

-- Embedding of `normalize_policy_criteria` from
-- src/backend/app/normalization/normalized_custom.py and of
-- `_validate_policy_consistency` from
-- src/backend/app/rag_pipeline/scripts/extract_policy_rules.py.
-- Logging-only blocks of the source (the skipped-criteria warnings, the
-- special-population and repeat-imaging-limit detectors, which touch no
-- returned data) are omitted; exceptions the source would raise are
-- modelled as `.error`.

/-- Python substring test on two strings. -/
def containsSub (needle hay : String) : Bool :=
  charListIsInfixOf needle.data hay.data

def contrastKeywords : List String :=
  ["creatinine", "egfr", "renal", "gadolinium", "contrast agent"]

/-- `any(kw in text.lower() for kw in CONTRAST_ONLY_KEYWORDS)`. -/
def hasContrastKeyword (s : String) : Bool :=
  contrastKeywords.any (fun kw => containsSub kw (pyLower s))

/-- Leftmost match of the regex `(\d+)\s*<word>` (e.g. `(\d+)\s*days?`):
the maximal digit run at the first position where digits followed by
optional whitespace and the word occur; returns the run's value.
Advancing one character at a time is equivalent to `re.search` here
because a failed match at a run's start also fails at every suffix of the
run (the text after the run is the same). -/
def scanNumThenWord : List Char → List Char → Option Nat
  | [], _ => none
  | c :: rest, word =>
    if c.isDigit &&
        charListIsPrefixOf word ((rest.dropWhile Char.isDigit).dropWhile isPySpace) then
      some ((c :: rest.takeWhile Char.isDigit).foldl
        (fun acc ch => acc * 10 + (ch.toNat - 48)) 0)
    else scanNumThenWord rest word

/-- Python truncation `int(q)` on an exact rational. -/
def pyTrunc (q : Rat) : Int :=
  if q < 0 then -Rat.floor (-q) else Rat.floor q

/-- `int(imaging_months * 30)` where `imaging_months` is an int or float. -/
def pyIntTimes30 : Val → Int
  | .int n => n * 30
  | .rat q => pyTrunc (q * 30)
  | _ => 0

def condDict (f op : String) (v : Val) : Val :=
  .dict [("field", .str f), ("operator", .str op), ("value", v)]

/-- `imaging_months` as computed inside the X-ray loop: default int 2,
overridden by `days/30` (a float) when a day count is found in the
prerequisite text, overridden again by an int month count. -/
def imagingMonthsOf (prereqLower : String) : Val :=
  let base : Val := .int 2
  let base : Val :=
    match scanNumThenWord prereqLower.data "day".data with
    | some d => .rat (Rat.divInt d 30)
    | none => base
  match scanNumThenWord prereqLower.data "month".data with
  | some m => .int m
  | none => base

def xrayRuleVal (im : Val) : Val :=
  .dict [("id", .str "xray_requirement"),
         ("description", .str ("Weight-bearing X-rays must be completed within " ++
            toString (pyIntTimes30 im) ++ " days")),
         ("logic", .str "all"),
         ("conditions", .list
           [condDict "imaging_documented" "eq" (.bool true),
            condDict "imaging_type" "eq" (.str "X-ray"),
            condDict "imaging_months_ago" "lte" im])]

/-- RULE 1: the X-ray loop over prerequisites (`break` after the first
matching prerequisite). -/
def findXrayRule (cptIs73721 : Bool) : List String → Option Val
  | [] => none
  | p :: rest =>
    if cptIs73721 && hasContrastKeyword p then findXrayRule cptIs73721 rest
    else
      let pl := pyLower p
      if containsSub "x-ray" pl || containsSub "xray" pl || containsSub "imaging" pl then
        some (xrayRuleVal (imagingMonthsOf pl))
      else findXrayRule cptIs73721 rest

/-- Truthiness of the Python variable `pt_weeks_required` (`None` and `0`
are falsy). -/
def ptWeeksTruthy : Option Int → Bool
  | none => false
  | some n => !(n == 0)

/-- RULE 2: the loop accumulating `pt_mentioned`/`pt_weeks_required` over
prerequisites + documentation requirements. -/
def ptFold (cptIs73721 : Bool) (allText : String) :
    List String → Bool → Option Int → Bool × Option Int
  | [], m, w => (m, w)
  | t :: rest, m, w =>
    if cptIs73721 && hasContrastKeyword t then ptFold cptIs73721 allText rest m w
    else
      let tl := pyLower t
      if containsSub "physical therapy" tl || containsSub "pt" tl then
        let w :=
          match scanNumThenWord tl.data "week".data with
          | some n => some (n : Int)
          | none => w
        let w :=
          if !(ptWeeksTruthy w) &&
              (containsSub "6 weeks" allText || containsSub "6 WEEKS" allText) then
            some 6
          else w
        ptFold cptIs73721 allText rest true w
      else ptFold cptIs73721 allText rest m w

def ptRuleVal (w : Option Int) : Val :=
  let baseCond := condDict "pt_attempted" "eq" (.bool true)
  if ptWeeksTruthy w then
    .dict [("id", .str "physical_therapy_requirement"),
           ("description", .str ("Physical therapy must be attempted and documented (minimum " ++
              toString (w.getD 0) ++ " weeks)")),
           ("logic", .str "all"),
           ("conditions", .list
             [baseCond, condDict "pt_duration_weeks" "gte" (.int (w.getD 0))])]
  else
    .dict [("id", .str "physical_therapy_requirement"),
           ("description", .str "Physical therapy must be attempted and documented"),
           ("logic", .str "all"),
           ("conditions", .list [baseCond])]

/-- RULE 3: medication keyword scan over prerequisites + documentation
requirements (`break` on the first hit). -/
def medicationMentioned (cptIs73721 : Bool) : List String → Bool
  | [] => false
  | t :: rest =>
    if cptIs73721 && hasContrastKeyword t then medicationMentioned cptIs73721 rest
    else
      let tl := pyLower t
      if containsSub "medication" tl || containsSub "nsaid" tl || containsSub "analgesic" tl then
        true
      else medicationMentioned cptIs73721 rest

def medicationRuleVal : Val :=
  .dict [("id", .str "medication_trial_requirement"),
         ("description", .str "Medication trial must be documented"),
         ("logic", .str "all"),
         ("conditions", .list [condDict "nsaid_documented" "eq" (.bool true)])]

def notesRuleVal : Val :=
  .dict [("id", .str "recent_clinical_notes"),
         ("description", .str "Clinical notes must be within 30 days"),
         ("logic", .str "all"),
         ("conditions", .list [condDict "clinical_notes_days_ago" "lte" (.int 30)])]

/-- RULE 4: the 30-day clinical-notes scan over documentation
requirements (`break` on the first hit). -/
def findNotesRule (cptIs73721 : Bool) : List String → Option Val
  | [] => none
  | d :: rest =>
    if cptIs73721 && hasContrastKeyword d then findNotesRule cptIs73721 rest
    else
      let dl := pyLower d
      if containsSub "30 days" dl || containsSub "within 30 days" dl then some notesRuleVal
      else findNotesRule cptIs73721 rest

/-- RULE 5: the keyword chain mapping one payer indication string to a
standardized keyword (`none` when no branch matches, i.e. skipped). -/
def normalizeIndication (ind : String) : Option String :=
  let il := pyLower ind
  if containsSub "meniscal tear" il || containsSub "meniscus" il then some "meniscal tear"
  else if containsSub "mechanical" il then some "mechanical symptoms"
  else if containsSub "ligament" il || containsSub "acl" il || containsSub "pcl" il then
    some "ligament rupture"
  else if containsSub "instability" il then some "instability"
  else if containsSub "traumatic" il || containsSub "trauma" il then some "traumatic injury"
  else if containsSub "mcmurray" il then some "positive mcmurray"
  else if containsSub "post-operative" il || containsSub "surgery" il then some "post-operative"
  else if containsSub "infection" il || containsSub "tumor" il || containsSub "fracture" il ||
      containsSub "red flag" il then some "red flag"
  else none

def dedupAux : List String → List String → List String
  | [], _ => []
  | s :: rest, seen =>
    if seen.contains s then dedupAux rest seen
    else s :: dedupAux rest (s :: seen)

/-- `list(dict.fromkeys(xs))`: deduplicate preserving first occurrences. -/
def dedupPreserve (xs : List String) : List String := dedupAux xs []

def clinicalIndicationRuleVal (inds : List String) : Val :=
  .dict [("id", .str "clinical_indication_requirement"),
         ("description", .str ("Patient must have a valid clinical indication: " ++
            joinWith ", " inds)),
         ("logic", .str "all"),
         ("conditions", .list [condDict "clinical_indication" "in" (.list (inds.map .str))])]

/-- RULE 8: the always-appended evidence-quality rule dict. -/
def evidenceQualityRuleVal : Val :=
  .dict [("id", .str "evidence_quality"),
         ("description", .str "Evidence must be validated with no hallucinations"),
         ("logic", .str "all"),
         ("conditions", .list
           [condDict "hallucinations_detected" "eq" (.int 0),
            condDict "validation_passed" "eq" (.bool true)])]

/-- `r.get("id") == target` for a rule dict (inside `normalize_policy_criteria`
this is only ever applied to dicts, so a non-dict is treated as no match). -/
def ruleIdIs (target : String) (r : Val) : Bool :=
  match r with
  | .dict kvs => pyEq ((lookupVal kvs "id").getD .null) (.str target)
  | _ => false

def condFieldIs (target : String) (c : Val) : Bool :=
  match c with
  | .dict kvs => pyEq ((lookupVal kvs "field").getD .null) (.str target)
  | _ => false

/-- Python dict assignment `d[k] = v`: overwrite in place or append. -/
def dictSet (kvs : List (String × Val)) (k : String) (v : Val) : List (String × Val) :=
  match kvs with
  | [] => [(k, v)]
  | (k2, w) :: rest => if k2 == k then (k, v) :: rest else (k2, w) :: dictSet rest k v

/-- The in-place correction `_validate_policy_consistency` applies to the
physical-therapy rule: ensure both the `pt_attempted` and the
`pt_duration_weeks` (default 6) conditions are present, updating the
description when the duration was defaulted. -/
def fixPtRule (r : Val) : Val :=
  match r with
  | .dict kvs =>
    let conds :=
      match (lookupVal kvs "conditions").getD .null with
      | .list cs => cs
      | _ => []
    let hasAtt := conds.any (condFieldIs "pt_attempted")
    let hasDur := conds.any (condFieldIs "pt_duration_weeks")
    if hasAtt && hasDur then r
    else
      let conds := if hasAtt then conds else
        conds ++ [condDict "pt_attempted" "eq" (.bool true)]
      let conds := if hasDur then conds else
        conds ++ [condDict "pt_duration_weeks" "gte" (.int 6)]
      let kvs := if hasDur then kvs else
        dictSet kvs "description" (.str ("Physical therapy must be attempted and documented " ++
          "(minimum 6 weeks) [duration defaulted — not found in extracted policy text]"))
      .dict (dictSet kvs "conditions" (.list conds))
  | _ => r

/-- `_validate_policy_consistency(rules_list)`: corrects the first rule
whose id is `physical_therapy_requirement`, leaves everything else as is
(the returned bool is only logged and is not modelled). -/
def validatePolicyConsistency : List Val → List Val
  | [] => []
  | r :: rest =>
    if ruleIdIs "physical_therapy_requirement" r then fixPtRule r :: rest
    else r :: validatePolicyConsistency rest

/-- All elements must be strings (otherwise `" ".join(...)` or `.lower()`
raises in the source). -/
def asStrListE : List Val → Except String (List String)
  | [] => .ok []
  | .str s :: rest => (asStrListE rest).map (fun l => s :: l)
  | _ => .error "TypeError: expected str elements"

/-- The Format 1 / Format 2 dispatch for `policy_obj`; a present `rules`
key that is neither list nor dict makes the following
`policy_obj.get(...)` raise `AttributeError` in the source. -/
def policyObjOf (criteria : List (String × Val)) :
    Except String (List (String × Val)) :=
  if (lookupVal criteria "coverage_criteria").isSome then .ok criteria
  else
    match lookupVal criteria "rules" with
    | some (.dict kvs) => .ok kvs
    | some _ => .error "AttributeError: policy_obj is not a dict"
    | none => .ok []

/-- `policy_obj.get("coverage_criteria", {})`; a present non-dict value
makes the following `coverage.get(...)` raise in the source. -/
def coverageOf (policyObj : List (String × Val)) :
    Except String (List (String × Val)) :=
  match lookupVal policyObj "coverage_criteria" with
  | some (.dict kvs) => .ok kvs
  | some _ => .error "AttributeError: coverage_criteria is not a dict"
  | none => .ok []

/-- `coverage.get(name, [])` destined for list concatenation + join: a
present non-list raises `TypeError` at `prerequisites + doc_requirements`
in the source. -/
def strListField (coverage : List (String × Val)) (name : String) :
    Except String (List String) :=
  match lookupVal coverage name with
  | some (.list xs) => asStrListE xs
  | some _ => .error "TypeError: can only concatenate list to list"
  | none => .ok []

/-- `criteria.get("context", [])` filtered through
`context if isinstance(context, list) else []`. -/
def ctxStrsOf (criteria : List (String × Val)) : Except String (List String) :=
  match lookupVal criteria "context" with
  | some (.list xs) => asStrListE xs
  | _ => .ok []

/-- Iterating `coverage.get("clinical_indications", [])` after its
truthiness gate: a list yields elements (strings, else `.lower()`
raises), a string yields its characters, a dict its keys; falsy values
are skipped; other truthy values are not iterable. -/
def indicationStringsOf (coverage : List (String × Val)) :
    Except String (List String) :=
  match lookupVal coverage "clinical_indications" with
  | some (.list xs) => asStrListE xs
  | some (.str s) => .ok (s.data.map (fun c => (⟨[c]⟩ : String)))
  | some (.dict kvs) => .ok (kvs.map (fun p => p.1))
  | some .null => .ok []
  | some (.bool b) => if b then .error "TypeError: bool is not iterable" else .ok []
  | some (.int n) => if n == 0 then .ok [] else .error "TypeError: int is not iterable"
  | some (.rat q) => if q == 0 then .ok [] else .error "TypeError: float is not iterable"
  | none => .ok []

/-- The clinical rules (RULES 1-5) generated before the evidence-quality
rule, in the source's append order. -/
def clinicalRulesOf (cptIs73721 : Bool) (allText : String)
    (prereqs docs inds : List String) : List Val :=
  (findXrayRule cptIs73721 prereqs).toList
  ++ (let mw := ptFold cptIs73721 allText (prereqs ++ docs) false none
      if mw.1 then [ptRuleVal mw.2] else [])
  ++ (if medicationMentioned cptIs73721 (prereqs ++ docs) then [medicationRuleVal] else [])
  ++ (findNotesRule cptIs73721 docs).toList
  ++ (let norm := inds.filterMap normalizeIndication
      if norm.isEmpty then [] else [clinicalIndicationRuleVal (dedupPreserve norm)])

/-- The Format 1 / Format 2 path of `normalize_policy_criteria`: build the
clinical rules, always append the evidence-quality rule, then run
`_validate_policy_consistency`. -/
def normalizeMain (criteria : List (String × Val)) : Except String (List Val) := do
  let policyObj ← policyObjOf criteria
  let coverage ← coverageOf policyObj
  let prereqs ← strListField coverage "prerequisites"
  let docs ← strListField coverage "documentation_requirements"
  let ctx ← ctxStrsOf criteria
  let allText := joinWith " " (prereqs ++ docs ++ ctx)
  let cptIs73721 := pyEq ((lookupVal policyObj "cpt_code").getD (.str "")) (.str "73721")
  let inds ← indicationStringsOf coverage
  pure (validatePolicyConsistency
    (clinicalRulesOf cptIs73721 allText prereqs docs inds ++ [evidenceQualityRuleVal]))

/-- `normalize_policy_criteria(criteria)`: a `rules` key holding a list is
the pre-normalized Format 3 and is filtered (dicts with `id` and
`conditions` keys) and returned as is — without the evidence-quality rule;
every other input goes through the Format 1/2 path. -/
def normalize_policy_criteria (criteria : List (String × Val)) :
    Except String (List Val) :=
  match lookupVal criteria "rules" with
  | some (.list rs) =>
    .ok (rs.filter (fun r =>
      match r with
      | .dict kvs => (lookupVal kvs "id").isSome && (lookupVal kvs "conditions").isSome
      | _ => false))
  | _ => normalizeMain criteria

example :
    normalize_policy_criteria [("coverage_criteria", .dict [])] =
      .ok [evidenceQualityRuleVal] := by rfl

example :
    normalize_policy_criteria
      [("rules", .list [.dict [("id", .str "r1"), ("conditions", .list [])]])] =
      .ok [.dict [("id", .str "r1"), ("conditions", .list [])]] := by rfl

-- Helper lemmas shared by several claim proofs.

theorem isNone_iff (v : Val) : isNone v = true ↔ v = Val.null := by
  cases v <;> simp [isNone]

theorem isFalseLit_iff (v : Val) : isFalseLit v = true ↔ v = Val.bool false := by
  cases v with
  | bool b => cases b <;> simp [isFalseLit]
  | _ => simp [isFalseLit]

theorem compare_values_null (op : String) (th : Val) :
    compare_values .null op th = .ok (op == "eq" && (isNone th || isFalseLit th)) := rfl

/-- Projection of the fields of an aggregate report that the claims about
`evaluate_all` compare: `(excluded, total_rules, all_criteria_met)`. -/
def reportSummary (r : AggregateReport) : Bool × Nat × Bool :=
  (r.excluded, r.total_rules, r.all_criteria_met)

-- C1: the rule and patient of the repository's own test
-- TestCountGteThreshold1.test_exactly_one_of_three_passes.

def c1Rule : Rule :=
  { id := "r", logic := "count_gte", threshold := some (.int 1),
    conditions := [⟨"field_0", "eq", .bool true⟩,
                   ⟨"field_1", "eq", .bool true⟩,
                   ⟨"field_2", "eq", .bool true⟩] }

def c1Patient : Val := .dict [("field_0", .bool true)]

/-- C1: the source `evaluate_rule` has no `count_gte` branch — the logic
dispatch falls through to `met = False`.  On a rule with
`logic = count_gte`, `threshold = 1` and exactly one true condition out of
three (the repository's own unit test input), the code reports the rule as
not met even though count(true) = 1 ≥ 1, so the claimed biconditional
fails where the test suite requires it to hold. -/
theorem C1_count_gte_not_implemented :
    c1Rule.logic = "count_gte" ∧ c1Rule.threshold = some (Val.int 1) ∧
    (c1Rule.conditions.map (evaluate_condition c1Patient)).count true = 1 ∧
    (evaluate_rule c1Patient c1Rule).met = false :=
  ⟨rfl, rfl, rfl, rfl⟩

-- C2: the rule list and patient of the repository's own test
-- TestEvaluateAllOrder.test_exclusion_rule_triggers_excluded_result.

def c2Rules : List Rule :=
  [ { id := "excl_rule", description := "Excluded if flagged", logic := "all",
      exclusion := true, conditions := [⟨"is_excluded", "eq", .bool true⟩] },
    { id := "standard_rule", description := "Standard", logic := "all",
      conditions := [⟨"criteria_met", "eq", .bool true⟩] } ]

def c2Patient : List (String × Val) :=
  [("is_excluded", .bool true), ("criteria_met", .bool true)]

/-- C2: the source `evaluate_all` never reads a rule's `exclusion` flag;
only the workers-compensation fact is checked.  With a met exclusion rule
plus one standard rule (the repository's own unit test input) the code
returns `excluded = false`, `total_rules = 2` and `all_criteria_met =
true` instead of the claimed `excluded = true`, `total_rules = 1`,
`all_criteria_met = false`. -/
theorem C2_exclusion_flag_ignored :
    (evaluate_all c2Patient c2Rules "").map reportSummary = .ok (false, 2, true) := rfl

-- C3: the rule list and patient of the repository's own test
-- TestEvaluateAllOrder.test_exception_rule_waives_standard_rule.

def c3Rules : List Rule :=
  [ { id := "exception_red_flag",
      description := "Red flag waives conservative treatment", logic := "all",
      exception_pathway := true, overrides := ["conservative_treatment"],
      conditions := [⟨"red_flag", "eq", .bool true⟩] },
    { id := "conservative_treatment", description := "6 weeks PT required",
      logic := "all", conditions := [⟨"pt_weeks_gte_6", "eq", .bool true⟩] },
    { id := "clinical_indication", description := "Must have clinical indication",
      logic := "all", conditions := [⟨"has_indication", "eq", .bool true⟩] } ]

def c3Patient : List (String × Val) :=
  [("red_flag", .bool true), ("pt_weeks_gte_6", .bool false),
   ("has_indication", .bool true)]

/-- C3: the source `evaluate_all` has no exception pass — `overrides` is
never read and no rule is waived.  With a met exception rule overriding
`conservative_treatment`, whose own condition is false, and a passing
third rule (the repository's own unit test input), the code evaluates
`conservative_treatment` against its conditions, records it as failed and
returns `all_criteria_met = false` instead of the claimed `true`. -/
theorem C3_overrides_ignored :
    (evaluate_all c3Patient c3Rules "").map reportSummary = .ok (false, 3, false) :=
  rfl

/-- C4: whenever the patient fact `is_workers_compensation` is `True`,
`evaluate_all` short-circuits: for every rule list and requested CPT it
returns the single synthetic exclusion entry with `excluded = true`,
`total_rules = 1`, `rules_met = 0`, `rules_failed = 1`, and the entry is
flagged as an exclusion. -/
theorem C4_workers_compensation_short_circuit
    (facts : List (String × Val)) (rules : List Rule) (cpt : String)
    (h : lookupVal facts "is_workers_compensation" = some (Val.bool true)) :
    evaluate_all facts rules cpt =
      .ok { results := [wcExclusionResult], all_criteria_met := false,
            total_rules := 1, rules_met := 0, rules_failed := 1, excluded := true,
            exclusion_reason := wcExclusionResult.exclusion_reason, warnings := [] } ∧
    wcExclusionResult.exclusion = true := by
  have hwc : evaluate_workers_compensation_exclusion facts = some wcExclusionResult := by
    unfold evaluate_workers_compensation_exclusion
    rw [h]
    rfl
  constructor
  · unfold evaluate_all
    rw [hwc]
  · rfl

/-- C4 witness: a concrete workers-compensation patient. -/
theorem C4_witness :
    evaluate_all [("is_workers_compensation", .bool true)]
        [{ id := "r1", conditions := [⟨"a", "eq", .bool true⟩] }] "73721" =
      .ok { results := [wcExclusionResult], all_criteria_met := false,
            total_rules := 1, rules_met := 0, rules_failed := 1, excluded := true,
            exclusion_reason := wcExclusionResult.exclusion_reason, warnings := [] } :=
  (C4_workers_compensation_short_circuit
    [("is_workers_compensation", .bool true)]
    [{ id := "r1", conditions := [⟨"a", "eq", .bool true⟩] }] "73721" rfl).1

/-- C5: comparing a missing (`None`) patient value yields `true` exactly
for operator `eq` with a `None` or `False` threshold, and yields a
boolean (never an error) for every operator and threshold. -/
theorem C5_null_patient_value (op : String) (th : Val) :
    (compare_values .null op th = .ok true ↔
      op = "eq" ∧ (th = Val.null ∨ th = Val.bool false)) ∧
    (compare_values .null op th = .ok true ∨ compare_values .null op th = .ok false) := by
  rw [compare_values_null op th]
  constructor
  · simp [Bool.and_eq_true, Bool.or_eq_true, beq_iff_eq, isNone_iff, isFalseLit_iff]
  · cases hb : (op == "eq" && (isNone th || isFalseLit th)) <;> simp

/-- C6: string equality under `eq` is the equality of the two strings
after lower-casing and stripping surrounding whitespace; in particular
`compare("Failed ", "eq", "failed")` is true. -/
theorem C6_string_eq_normalized (s t : String) :
    (compare_values (.str s) "eq" (.str t) = .ok true ↔
      pyStrip (pyLower s) = pyStrip (pyLower t)) ∧
    compare_values (.str "Failed ") "eq" (.str "failed") = .ok true := by
  have h : compare_values (.str s) "eq" (.str t) =
      .ok (pyStrip (pyLower s) == pyStrip (pyLower t)) := rfl
  exact ⟨by rw [h]; simp [beq_iff_eq], rfl⟩

-- C7: counterexample input — an unresolvable field under operator eq with
-- a null threshold evaluates to TRUE, not false.

def c7Cond : Condition := ⟨"missing_field", "eq", .null⟩

/-- C7 counterexample: on an empty fact map the field `missing_field` is
unresolvable (resolves to `None`), yet `evaluate_condition` returns
`true` — because `compare(None, "eq", None)` is true — refuting the claim
that an unresolvable field always yields `false`. -/
theorem C7_counterexample :
    get_nested_value (.dict []) "missing_field" = Val.null ∧
    evaluate_condition (.dict []) c7Cond = true :=
  ⟨rfl, rfl⟩

/-- C7 (amended): `evaluate_condition` always yields a boolean and never
propagates an error: any comparison error (unknown operator,
non-comparable operand) is caught and yields `false`; an unresolvable
field yields `false` except in the `eq`-with-`None`/`False`-threshold
case; and `evaluate_all` with an empty `requested_cpt` always returns a
report, never an error. -/
theorem C7_fail_closed (data : Val) (cond : Condition) :
    (∀ e, compare_values (get_nested_value data cond.field) cond.operator cond.value =
        .error e → evaluate_condition data cond = false) ∧
    (get_nested_value data cond.field = Val.null →
      ¬(cond.operator = "eq" ∧ (cond.value = Val.null ∨ cond.value = Val.bool false)) →
      evaluate_condition data cond = false) ∧
    (∀ (facts : List (String × Val)) (rules : List Rule),
      ∃ rep, evaluate_all facts rules "" = .ok rep) := by
  refine ⟨?_, ?_, ?_⟩
  · intro e he
    unfold evaluate_condition
    by_cases hg : (cond.field == "" || cond.operator == "") = true
    · simp [hg]
    · simp [hg, he]
  · intro hnull hnot
    unfold evaluate_condition
    by_cases hg : (cond.field == "" || cond.operator == "") = true
    · simp [hg]
    · rw [hnull, compare_values_null]
      have hb : (cond.operator == "eq" && (isNone cond.value || isFalseLit cond.value)) = false := by
        cases hb : (cond.operator == "eq" && (isNone cond.value || isFalseLit cond.value))
        · rfl
        · exfalso
          apply hnot
          simpa [Bool.and_eq_true, Bool.or_eq_true, beq_iff_eq, isNone_iff,
            isFalseLit_iff] using hb
      simp [hg, hb]
  · intro facts rules
    cases hwc : evaluate_workers_compensation_exclusion facts with
    | some wc => exact ⟨_, by unfold evaluate_all; rw [hwc]⟩
    | none => exact ⟨_, by unfold evaluate_all; rw [hwc]; rfl⟩

/-- C7 witness: an unknown operator and an unresolvable field under `gte`
both evaluate to `false` at concrete inputs. -/
theorem C7_witness :
    evaluate_condition (.dict [("x", .int 1)]) ⟨"x", "bogus_op", .int 3⟩ = false ∧
    evaluate_condition (.dict []) ⟨"y", "gte", .int 5⟩ = false :=
  ⟨(C7_fail_closed (.dict [("x", .int 1)]) ⟨"x", "bogus_op", .int 3⟩).1
      "Unknown operator: bogus_op" rfl,
   (C7_fail_closed (.dict []) ⟨"y", "gte", .int 5⟩).2.1 rfl
      (by intro hc; exact absurd hc.1 (by decide))⟩

/-- C8: for a non-`None` patient value and an operator outside the nine
supported ones, `compare_values` raises (`ValueError`) rather than
returning a boolean. -/
theorem C8_unknown_operator_raises (pv : Val) (op : String) (th : Val)
    (h1 : isNone pv = false)
    (h2 : op ∉ (["eq", "neq", "gte", "gt", "lte", "lt", "in", "contains", "any_in"] : List String)) :
    compare_values pv op th = .error ("Unknown operator: " ++ op) := by
  simp only [List.mem_cons, List.not_mem_nil, or_false, not_or] at h2
  obtain ⟨hne, hnn, hngte, hngt, hnlte, hnlt, hnin, hnc, hna⟩ := h2
  have hchain : ∀ a b : Val, compareValuesChain a op b = .error ("Unknown operator: " ++ op) := by
    intro a b
    unfold compareValuesChain
    simp [hne, hnn, hngte, hngt, hnlte, hnlt, hnin, hnc, hna]
  cases pv <;> cases th <;> simp [compare_values, isNone, hne, hchain] <;>
    simp_all [isNone]

/-- C8 witness: the unknown operator `between` on a concrete int raises. -/
theorem C8_witness :
    compare_values (.int 1) "between" .null = .error "Unknown operator: between" :=
  C8_unknown_operator_raises (.int 1) "between" .null rfl (by decide)

-- C9: supporting lemmas.

theorem exceptBind_ok {α β : Type} {e : Except String α} {f : α → Except String β} {b : β}
    (h : e >>= f = .ok b) : ∃ a, e = .ok a ∧ f a = .ok b := by
  cases e with
  | error err => exact absurd h (by intro hh; exact Except.noConfusion hh)
  | ok a => exact ⟨a, rfl, h⟩

theorem normalizeMain_shape (criteria : List (String × Val)) (rs : List Val)
    (h : normalizeMain criteria = .ok rs) :
    ∃ xs, rs = validatePolicyConsistency (xs ++ [evidenceQualityRuleVal]) := by
  unfold normalizeMain at h
  obtain ⟨po, hpo, h⟩ := exceptBind_ok h
  obtain ⟨cov, hcov, h⟩ := exceptBind_ok h
  obtain ⟨pre, hpre, h⟩ := exceptBind_ok h
  obtain ⟨docs, hdocs, h⟩ := exceptBind_ok h
  obtain ⟨ctx, hctx, h⟩ := exceptBind_ok h
  obtain ⟨inds, hinds, h⟩ := exceptBind_ok h
  refine ⟨clinicalRulesOf (pyEq ((lookupVal po "cpt_code").getD (.str "")) (.str "73721"))
    (joinWith " " (pre ++ docs ++ ctx)) pre docs inds, ?_⟩
  have h2 : Except.ok (ε := String) (validatePolicyConsistency
      (clinicalRulesOf (pyEq ((lookupVal po "cpt_code").getD (.str "")) (.str "73721"))
        (joinWith " " (pre ++ docs ++ ctx)) pre docs inds ++ [evidenceQualityRuleVal])) =
      .ok rs := h
  injection h2 with h3
  exact h3.symm

theorem validate_append_evq (xs : List Val) (e : Val)
    (he : ruleIdIs "physical_therapy_requirement" e = false) :
    ∃ ys, validatePolicyConsistency (xs ++ [e]) = ys ++ [e] := by
  induction xs with
  | nil =>
    refine ⟨[], ?_⟩
    simp [validatePolicyConsistency, he]
  | cons r rest ih =>
    by_cases h : ruleIdIs "physical_therapy_requirement" r = true
    · exact ⟨fixPtRule r :: rest, by simp [validatePolicyConsistency, h]⟩
    · obtain ⟨ys, hys⟩ := ih
      refine ⟨r :: ys, ?_⟩
      simp only [List.cons_append, validatePolicyConsistency]
      rw [if_neg h]
      exact congrArg (List.cons r) hys

-- C9: counterexample input — a pre-normalized (Format 3) policy.

def c9Format3Input : List (String × Val) :=
  [("rules", .list [.dict [("id", .str "r1"), ("conditions", .list [])]])]

/-- C9 counterexample: on a pre-normalized input (`rules` key holding a
list) `normalize_policy_criteria` returns the rules as-is; the last
element of the result is the input rule `r1`, not the synthetic
evidence-quality rule, refuting the claim that the rule is always
appended regardless of the detected input shape. -/
theorem C9_counterexample :
    normalize_policy_criteria c9Format3Input =
      .ok [.dict [("id", .str "r1"), ("conditions", .list [])]] ∧
    ([Val.dict [("id", .str "r1"), ("conditions", .list [])]] : List Val).getLast? =
      some (.dict [("id", .str "r1"), ("conditions", .list [])]) ∧
    ruleIdIs "evidence_quality" (.dict [("id", .str "r1"), ("conditions", .list [])]) = false :=
  ⟨rfl, rfl, rfl⟩

/-- C9 (amended): for every input NOT detected as pre-normalized (no
`rules` key holding a list), whenever `normalize_policy_criteria`
succeeds, the last element of the returned rule list is the synthetic
evidence-quality rule (checking `hallucinations_detected` and
`validation_passed`); a pre-normalized input is returned as-is without
the appended rule. -/
theorem C9_evidence_quality_last (criteria : List (String × Val)) (rs : List Val)
    (hfmt : ∀ xs : List Val, lookupVal criteria "rules" ≠ some (Val.list xs))
    (hok : normalize_policy_criteria criteria = .ok rs) :
    rs.getLast? = some evidenceQualityRuleVal := by
  have hmain : normalizeMain criteria = .ok rs := by
    unfold normalize_policy_criteria at hok
    cases hr : lookupVal criteria "rules" with
    | none => rw [hr] at hok; exact hok
    | some v =>
      cases v with
      | list xs => exact absurd hr (hfmt xs)
      | null => rw [hr] at hok; exact hok
      | bool b => rw [hr] at hok; exact hok
      | int n => rw [hr] at hok; exact hok
      | rat q => rw [hr] at hok; exact hok
      | str s => rw [hr] at hok; exact hok
      | dict kvs => rw [hr] at hok; exact hok
  obtain ⟨xs, hxs⟩ := normalizeMain_shape criteria rs hmain
  obtain ⟨ys, hys⟩ := validate_append_evq xs evidenceQualityRuleVal rfl
  rw [hxs, hys]
  exact List.getLast?_concat ys

/-- C9 witness: a concrete Format 2 policy object (empty coverage
criteria) normalizes to exactly the evidence-quality rule, which is the
last element. -/
theorem C9_witness :
    normalize_policy_criteria [("coverage_criteria", Val.dict [])] =
      .ok [evidenceQualityRuleVal] ∧
    ([evidenceQualityRuleVal] : List Val).getLast? = some evidenceQualityRuleVal :=
  ⟨rfl,
   C9_evidence_quality_last [("coverage_criteria", Val.dict [])] [evidenceQualityRuleVal]
     (fun xs h => by
       rw [show lookupVal [("coverage_criteria", Val.dict [])] "rules" = none from rfl] at h
       cases h)
     rfl⟩

/-- C10: with `is_workers_compensation` falsy and an empty rule list,
`evaluate_all` vacuously approves: `all_criteria_met = true` with zero
counts and no exclusion. -/
theorem C10_empty_rules_vacuous_approval (facts : List (String × Val))
    (h : pyTruthy ((lookupVal facts "is_workers_compensation").getD .null) = false) :
    evaluate_all facts [] "" =
      .ok { results := [], all_criteria_met := true, total_rules := 0,
            rules_met := 0, rules_failed := 0, excluded := false,
            exclusion_reason := none, warnings := [] } := by
  have hwc : evaluate_workers_compensation_exclusion facts = none := by
    unfold evaluate_workers_compensation_exclusion
    simp [h]
  unfold evaluate_all
  rw [hwc]
  rfl

/-- C10 witness: the empty fact map with the empty rule list. -/
theorem C10_witness :
    evaluate_all [] [] "" =
      .ok { results := [], all_criteria_met := true, total_rules := 0,
            rules_met := 0, rules_failed := 0, excluded := false,
            exclusion_reason := none, warnings := [] } :=
  C10_empty_rules_vacuous_approval [] rfl

end PauthRC

